import Mathlib

/-!
Shallow embedding of `src/src/libsystemd-network/sd-ipv4acd.c`, the IPv4
Address Conflict Detection (RFC 5227) engine of systemd.

The session structure mirrors `struct sd_ipv4acd`; the handlers
(`ipv4acd_on_timeout`, `ipv4acd_on_packet`) and the public facade
(`sd_ipv4acd_set_ifindex`, `sd_ipv4acd_set_mac`, `sd_ipv4acd_set_address`,
`sd_ipv4acd_start`, `sd_ipv4acd_stop`) are translated statement by
statement.  External effects that the C code performs through the event
loop and the raw socket are made explicit:

* sent ARP frames and callback invocations become an ordered `List Output`;
* the one-shot timer source becomes `timer : Option Nat` holding the
  absolute wakeup time in microseconds;
* `random_u64()` and `sd_event_now()` become fields of a per-call
  environment `TickEnv`; send / scheduling failures become the booleans
  `sendOk` / `schedOk` of that environment;
* `recv` results become the inductive `RecvResult`.

Machine integers: all time quantities are `Nat` microseconds (usec_t is
unsigned 64-bit; none of the claims involves wraparound), the IPv4 address
is the 32-bit value `address : Nat`, the MAC is its 48-bit value
`mac_addr : Nat` (`ether_addr_is_null` is equality with 0).
-/

namespace IPv4ACD

/-! ## Constants (lines 40-50 of the source) -/

def USEC_PER_SEC : Nat := 1000000

def PROBE_WAIT_USEC : Nat := 1 * USEC_PER_SEC

def PROBE_NUM : Nat := 3

def PROBE_MIN_USEC : Nat := 1 * USEC_PER_SEC

def PROBE_MAX_USEC : Nat := 2 * USEC_PER_SEC

def ANNOUNCE_WAIT_USEC : Nat := 2 * USEC_PER_SEC

def ANNOUNCE_NUM : Nat := 2

def ANNOUNCE_INTERVAL_USEC : Nat := 2 * USEC_PER_SEC

def MAX_CONFLICTS : Nat := 10

def RATE_LIMIT_INTERVAL_USEC : Nat := 60 * USEC_PER_SEC

def DEFEND_INTERVAL_USEC : Nat := 10 * USEC_PER_SEC

/-- `sizeof(struct ether_arp)`: 28 bytes. -/
def ether_arp_size : Nat := 28

/-! ## Data model -/

/-- `IPv4ACDState` (lines 52-62). -/
inductive ACDState where
  | INIT
  | STARTED
  | WAITING_PROBE
  | PROBING
  | WAITING_ANNOUNCE
  | ANNOUNCING
  | RUNNING
deriving DecidableEq, Repr

/-- The events delivered to the client callback
(`SD_IPV4ACD_EVENT_STOP/BIND/CONFLICT`). -/
inductive Event where
  | STOP
  | BIND
  | CONFLICT
deriving DecidableEq, Repr

/-- Observable outputs of a handler invocation, in order: ARP frames put on
the wire (`arp_send_probe` / `arp_send_announcement` succeeding) and client
callback invocations (`ipv4acd_client_notify`). -/
inductive Output where
  | sentProbe
  | sentAnnouncement
  | ev (e : Event)
deriving DecidableEq, Repr

/-- `struct sd_ipv4acd` (lines 64-87).  `fdOpen` stands for `fd >= 0`,
`rxActive` for `receive_message_event_source != NULL`, `timer` for
`timer_event_source` together with its absolute wakeup time, and
`eventAttached` for `event != NULL`.  Reference counting, the callback
pointer and the event priority carry no state-machine content and are
omitted. -/
structure Session where
  state : ACDState
  ifindex : Int
  fdOpen : Bool
  n_iteration : Nat
  n_conflict : Nat
  rxActive : Bool
  timer : Option Nat
  defend_window : Nat
  address : Nat
  mac_addr : Nat
  eventAttached : Bool
deriving DecidableEq, Repr

/-- Error codes visible at the API boundary. `EIO` stands for any negative
errno propagated from socket / event-loop operations. -/
inductive Errno where
  | EINVAL
  | EBUSY
  | EIO
deriving DecidableEq, Repr

/-- Per-invocation environment of a handler: `now` is what
`sd_event_now` returns, `rand` is the `random_u64()` draw, `sendOk`
states that `arp_send_probe` / `arp_send_announcement` succeeds, and
`schedOk` that `sd_event_add_time` + `sd_event_source_set_priority`
succeed. -/
structure TickEnv where
  now : Nat
  rand : Nat
  sendOk : Bool
  schedOk : Bool
deriving DecidableEq, Repr

/-- Result of `recv(fd, &packet, sizeof(struct ether_arp), 0)`: an error
(with `transient` = `EAGAIN || EINTR`), or `n` bytes received whose ARP
sender protocol address field is `spa`. -/
inductive RecvResult where
  | err (transient : Bool)
  | frame (n : Nat) (spa : Nat)
deriving DecidableEq, Repr

/-- Result of a handler: normal return (with the updated session and the
outputs emitted), or the `assert_not_reached("Invalid state.")` in the
default branch of the state switch. -/
inductive HResult where
  | ok (ll : Session) (outs : List Output)
  | invalidStateAssert
deriving DecidableEq, Repr

/-! ## Internal helpers -/

/-- `ipv4acd_set_state` (lines 92-102). -/
def ipv4acd_set_state (ll : Session) (st : ACDState) (reset_counter : Bool) : Session :=
  if st = ll.state ∧ reset_counter = false then
    { ll with n_iteration := ll.n_iteration + 1 }
  else
    { ll with state := st, n_iteration := 0 }

/-- `ipv4acd_reset` (lines 104-113): release the timer and rx sources,
close the fd, enter INIT.  Note that `defend_window` and `n_conflict` are
NOT touched here. -/
def ipv4acd_reset (ll : Session) : Session :=
  ipv4acd_set_state
    { ll with timer := none, rxActive := false, fdOpen := false }
    ACDState.INIT true

/-- `sd_ipv4acd_stop` (lines 172-182): unconditional reset, then notify
`STOP`. -/
def sd_ipv4acd_stop (ll : Session) : Session × List Output :=
  (ipv4acd_reset ll, [Output.ev Event.STOP])

/-- The delay computed by `ipv4acd_set_next_wakeup` (lines 193-196):
`usec`, plus `random_u64() % random_usec` when `random_usec > 0`. -/
def next_timeout (usec random_usec rand : Nat) : Nat :=
  usec + if random_usec > 0 then rand % random_usec else 0

/-- `ipv4acd_set_next_wakeup` (lines 186-215): arm the one-shot timer at
`now + next_timeout`, replacing any previous timer; `none` models
`sd_event_add_time` / `sd_event_source_set_priority` failing. -/
def ipv4acd_set_next_wakeup (env : TickEnv) (ll : Session) (usec random_usec : Nat) :
    Option Session :=
  if env.schedOk then
    some { ll with timer := some (env.now + next_timeout usec random_usec env.rand) }
  else
    none

/-- `ipv4acd_arp_conflict` (lines 217-227): conflict iff the frame's
sender protocol address equals the session address. -/
def ipv4acd_arp_conflict (ll : Session) (spa : Nat) : Bool :=
  spa = ll.address

/-- `ipv4acd_on_conflict` (lines 329-342): bump `n_conflict`, reset, notify
`CONFLICT`. -/
def ipv4acd_on_conflict (ll : Session) : Session × List Output :=
  (ipv4acd_reset { ll with n_conflict := ll.n_conflict + 1 },
   [Output.ev Event.CONFLICT])

/-- The `fail:` label of `ipv4acd_on_timeout` (lines 324-326): call
`sd_ipv4acd_stop`; `outs` are the outputs already emitted earlier in the
handler. -/
def on_timeout_fail (ll : Session) (outs : List Output) : Session × List Output :=
  (ipv4acd_reset ll, outs ++ [Output.ev Event.STOP])

/-- The announcement-sending tail shared by the `WAITING_ANNOUNCE` case and
the fall-through from `ANNOUNCING` (lines 296-316). -/
def ipv4acd_announce_step (env : TickEnv) (ll : Session) : Session × List Output :=
  if env.sendOk then
    let ll := ipv4acd_set_state ll ACDState.ANNOUNCING false
    match ipv4acd_set_next_wakeup env ll ANNOUNCE_INTERVAL_USEC 0 with
    | none => on_timeout_fail ll [Output.sentAnnouncement]
    | some ll =>
        if ll.n_iteration = 0 then
          ({ ll with n_conflict := 0 },
           [Output.sentAnnouncement, Output.ev Event.BIND])
        else
          (ll, [Output.sentAnnouncement])
  else
    on_timeout_fail ll []

/-- The probe-sending body shared by the `WAITING_PROBE` and `PROBING`
cases of `ipv4acd_on_timeout` (lines 257-286): send a probe, then either
repeat in PROBING with a jittered interval or move to WAITING_ANNOUNCE. -/
def ipv4acd_probe_step (env : TickEnv) (ll : Session) : Session × List Output :=
  if env.sendOk then
    if ll.n_iteration < PROBE_NUM - 2 then
      let ll := ipv4acd_set_state ll ACDState.PROBING false
      match ipv4acd_set_next_wakeup env ll PROBE_MIN_USEC (PROBE_MAX_USEC - PROBE_MIN_USEC) with
      | none => on_timeout_fail ll [Output.sentProbe]
      | some ll => (ll, [Output.sentProbe])
    else
      let ll := ipv4acd_set_state ll ACDState.WAITING_ANNOUNCE true
      match ipv4acd_set_next_wakeup env ll ANNOUNCE_WAIT_USEC 0 with
      | none => on_timeout_fail ll [Output.sentProbe]
      | some ll => (ll, [Output.sentProbe])
  else
    on_timeout_fail ll []

/-- The `ANNOUNCING` / `RUNNING` case of `ipv4acd_on_packet`
(lines 374-395): on a conflicting frame, defend once per window (setting
`defend_window = now + DEFEND_INTERVAL` before the send) or, inside the
window, hand over to `ipv4acd_on_conflict`. -/
def ipv4acd_defend (env : TickEnv) (spa : Nat) (ll : Session) : HResult :=
  if ipv4acd_arp_conflict ll spa then
    if ll.defend_window < env.now then
      let ll := { ll with defend_window := env.now + DEFEND_INTERVAL_USEC }
      if env.sendOk then
        HResult.ok ll [Output.sentAnnouncement]
      else
        let p := sd_ipv4acd_stop ll
        HResult.ok p.1 p.2
    else
      let p := ipv4acd_on_conflict ll
      HResult.ok p.1 p.2
  else
    HResult.ok ll []

/-- `ipv4acd_on_timeout` (lines 229-327).  The default branch of the
switch (states INIT and RUNNING) is `assert_not_reached`. -/
def ipv4acd_on_timeout (env : TickEnv) (ll : Session) : HResult :=
  match ll.state with
  | ACDState.STARTED =>
      let ll := ipv4acd_set_state ll ACDState.WAITING_PROBE true
      if MAX_CONFLICTS ≤ ll.n_conflict then
        match ipv4acd_set_next_wakeup env ll RATE_LIMIT_INTERVAL_USEC PROBE_WAIT_USEC with
        | none =>
            let p := on_timeout_fail ll []
            HResult.ok p.1 p.2
        | some ll => HResult.ok { ll with n_conflict := 0 } []
      else
        match ipv4acd_set_next_wakeup env ll 0 PROBE_WAIT_USEC with
        | none =>
            let p := on_timeout_fail ll []
            HResult.ok p.1 p.2
        | some ll => HResult.ok ll []
  | ACDState.WAITING_PROBE =>
      let p := ipv4acd_probe_step env ll
      HResult.ok p.1 p.2
  | ACDState.PROBING =>
      let p := ipv4acd_probe_step env ll
      HResult.ok p.1 p.2
  | ACDState.ANNOUNCING =>
      if ANNOUNCE_NUM - 1 ≤ ll.n_iteration then
        HResult.ok (ipv4acd_set_state ll ACDState.RUNNING false) []
      else
        let p := ipv4acd_announce_step env ll
        HResult.ok p.1 p.2
  | ACDState.WAITING_ANNOUNCE =>
      let p := ipv4acd_announce_step env ll
      HResult.ok p.1 p.2
  | _ => HResult.invalidStateAssert

/-- `ipv4acd_on_packet` (lines 344-413). -/
def ipv4acd_on_packet (env : TickEnv) (rx : RecvResult) (ll : Session) : HResult :=
  match rx with
  | RecvResult.err transient =>
      if transient then
        HResult.ok ll []
      else
        let p := sd_ipv4acd_stop ll
        HResult.ok p.1 p.2
  | RecvResult.frame n spa =>
      if n ≠ ether_arp_size then
        HResult.ok ll []
      else
        match ll.state with
        | ACDState.ANNOUNCING => ipv4acd_defend env spa ll
        | ACDState.RUNNING => ipv4acd_defend env spa ll
        | ACDState.WAITING_PROBE =>
            let p := ipv4acd_on_conflict ll
            HResult.ok p.1 p.2
        | ACDState.PROBING =>
            let p := ipv4acd_on_conflict ll
            HResult.ok p.1 p.2
        | ACDState.WAITING_ANNOUNCE =>
            let p := ipv4acd_on_conflict ll
            HResult.ok p.1 p.2
        | _ => HResult.invalidStateAssert

/-! ## Public facade -/

/-- `sd_ipv4acd_new` (lines 143-161): `new0` zeroes the structure, then
state INIT, ifindex -1, fd -1. -/
def sd_ipv4acd_new : Session :=
  { state := ACDState.INIT
    ifindex := -1
    fdOpen := false
    n_iteration := 0
    n_conflict := 0
    rxActive := false
    timer := none
    defend_window := 0
    address := 0
    mac_addr := 0
    eventAttached := false }

/-- `sd_ipv4acd_set_ifindex` (lines 415-423). -/
def sd_ipv4acd_set_ifindex (ll : Session) (ifindex : Int) : Except Errno Session :=
  if ¬ ifindex > 0 then Except.error Errno.EINVAL
  else if ll.state ≠ ACDState.INIT then Except.error Errno.EBUSY
  else Except.ok { ll with ifindex := ifindex }

/-- `sd_ipv4acd_set_mac` (lines 425-433).  The argument models the
`const struct ether_addr *` pointer: `none` is NULL.  Note the source only
checks the pointer for NULL; the bytes are not inspected. -/
def sd_ipv4acd_set_mac (ll : Session) (addr : Option Nat) : Except Errno Session :=
  match addr with
  | none => Except.error Errno.EINVAL
  | some a =>
      if ll.state ≠ ACDState.INIT then Except.error Errno.EBUSY
      else Except.ok { ll with mac_addr := a }

/-- `sd_ipv4acd_set_address` (lines 471-479).  The argument models the
`const struct in_addr *` pointer: `none` is NULL; the stored value is
`address->s_addr`. -/
def sd_ipv4acd_set_address (ll : Session) (address : Option Nat) : Except Errno Session :=
  match address with
  | none => Except.error Errno.EINVAL
  | some a =>
      if ll.state ≠ ACDState.INIT then Except.error Errno.EBUSY
      else Except.ok { ll with address := a }

/-- `sd_ipv4acd_is_running` (lines 481-485). -/
def sd_ipv4acd_is_running (ll : Session) : Bool :=
  ll.state ≠ ACDState.INIT

/-- `ether_addr_is_null` from ether-addr-util: all six bytes zero. -/
def ether_addr_is_null (a : Nat) : Bool :=
  a = 0

/-- `sd_ipv4acd_attach_event` (lines 443-460): fails `EBUSY` when already
attached. -/
def sd_ipv4acd_attach_event (ll : Session) : Except Errno Session :=
  if ll.eventAttached then Except.error Errno.EBUSY
  else Except.ok { ll with eventAttached := true }

/-- `sd_ipv4acd_start` (lines 487-526).  `bindOk` models
`arp_network_bind_raw_socket` succeeding, `ioOk` models
`sd_event_add_io` + `sd_event_source_set_priority` succeeding; the
`fail:` label calls `ipv4acd_reset` (no STOP event).  On success the io
source is registered (rx subscribed) BEFORE the t=0 timer is armed and
BEFORE the transition to STARTED. -/
def sd_ipv4acd_start (bindOk ioOk : Bool) (env : TickEnv) (ll : Session) :
    Session × Option Errno :=
  if ¬ ll.eventAttached then (ll, some Errno.EINVAL)
  else if ¬ ll.ifindex > 0 then (ll, some Errno.EINVAL)
  else if ll.address = 0 then (ll, some Errno.EINVAL)
  else if ether_addr_is_null ll.mac_addr then (ll, some Errno.EINVAL)
  else if ll.state ≠ ACDState.INIT then (ll, some Errno.EBUSY)
  else if ¬ bindOk then (ll, some Errno.EIO)
  else
    let ll := { ll with fdOpen := true, defend_window := 0, n_conflict := 0 }
    if ¬ ioOk then (ipv4acd_reset ll, some Errno.EIO)
    else
      let ll := { ll with rxActive := true }
      match ipv4acd_set_next_wakeup env ll 0 0 with
      | none => (ipv4acd_reset ll, some Errno.EIO)
      | some ll => (ipv4acd_set_state ll ACDState.STARTED true, none)

/-! ## Run driver and helpers for stating properties -/

/-- Fire the armed timer once per environment in `envs`, accumulating the
emitted outputs in order; an assertion failure aborts the run. -/
def run_timers (envs : List TickEnv) (ll : Session) : HResult :=
  match envs with
  | [] => HResult.ok ll []
  | e :: rest =>
      match ipv4acd_on_timeout e ll with
      | HResult.ok ll' outs =>
          match run_timers rest ll' with
          | HResult.ok ll'' outs' => HResult.ok ll'' (outs ++ outs')
          | HResult.invalidStateAssert => HResult.invalidStateAssert
      | HResult.invalidStateAssert => HResult.invalidStateAssert

/-- The outputs of a handler result (empty on assertion failure). -/
def HResult.outsD : HResult → List Output
  | HResult.ok _ outs => outs
  | HResult.invalidStateAssert => []

/-- The session of a handler result (fresh session on assertion failure). -/
def HResult.sessionD : HResult → Session
  | HResult.ok ll _ => ll
  | HResult.invalidStateAssert => sd_ipv4acd_new

/-- Unwrap a facade result, falling back to a fresh session on error. -/
def exceptD (e : Except Errno Session) : Session :=
  match e with
  | Except.ok s => s
  | Except.error _ => sd_ipv4acd_new

/-- The configuration sequence of the scenarios: fresh session, attach the
event loop, then `set_ifindex` / `set_mac` / `set_address`. -/
def configure (i : Int) (mac adr : Nat) : Except Errno Session := do
  let ll ← sd_ipv4acd_attach_event sd_ipv4acd_new
  let ll ← sd_ipv4acd_set_ifindex ll i
  let ll ← sd_ipv4acd_set_mac ll (some mac)
  sd_ipv4acd_set_address ll (some adr)

/-- A benign tick environment: virtual time 0, random draw 0, all
external operations succeed. -/
def env0 : TickEnv := { now := 0, rand := 0, sendOk := true, schedOk := true }

/-- Session after one timer tick. -/
def tick_session (e : TickEnv) (ll : Session) : Session :=
  (ipv4acd_on_timeout e ll).sessionD

/-- Outputs of one timer tick. -/
def tick_outs (e : TickEnv) (ll : Session) : List Output :=
  (ipv4acd_on_timeout e ll).outsD

/-- One round of scenario S3: `sd_ipv4acd_start`, the STARTED timer tick,
then a conflicting full-size ARP frame (delivered while WAITING_PROBE). -/
def s3_round (env : TickEnv) (ll : Session) : Session :=
  let ll1 := (sd_ipv4acd_start true true env ll).1
  let ll2 := (ipv4acd_on_timeout env ll1).sessionD
  (ipv4acd_on_packet env (RecvResult.frame ether_arp_size ll2.address) ll2).sessionD

/-- Scenario sessions: configured with ifindex 2,
mac 02:00:00:00:00:01 (value 2199023255553) and address 169.254.7.7
(value 2851997447). -/
def s3_conf : Session := exceptD (configure 2 2199023255553 2851997447)

/-- The session after ten start/conflict rounds. -/
def s3_after10 : Session := Nat.iterate (s3_round env0) 10 s3_conf

/-- The session after the 11th `sd_ipv4acd_start`. -/
def s3_start11 : Session := (sd_ipv4acd_start true true env0 s3_after10).1

/-- The result of the STARTED timer tick following the 11th start. -/
def s3_tick11 : HResult := ipv4acd_on_timeout env0 s3_start11

/-- The defend-window invariant as amended: `defend_window` is 0 in the
states between `start` and the first announcement (STARTED,
WAITING_PROBE, PROBING, WAITING_ANNOUNCE).  In INIT it may be stale and
non-zero, because `ipv4acd_reset` does not clear it; only
`sd_ipv4acd_start` does. -/
def DefendWindowInv (ll : Session) : Prop :=
  (ll.state = ACDState.STARTED ∨ ll.state = ACDState.WAITING_PROBE ∨
   ll.state = ACDState.PROBING ∨ ll.state = ACDState.WAITING_ANNOUNCE) →
  ll.defend_window = 0

instance (ll : Session) : Decidable (DefendWindowInv ll) := by
  unfold DefendWindowInv
  infer_instance

/-- A session driven concretely to RUNNING: configure, start, then seven
benign ticks (STARTED, three probes, two announcements, the tick that
enters RUNNING). -/
def c9_running : Session :=
  Nat.iterate (tick_session env0) 7 (sd_ipv4acd_start true true env0 s3_conf).1

/-- `c9_running` after a conflicting frame at virtual time 5: a defence. -/
def c9_after_defence : Session :=
  (ipv4acd_on_packet { now := 5, rand := 0, sendOk := true, schedOk := true }
    (RecvResult.frame ether_arp_size c9_running.address) c9_running).sessionD

/-- `c9_after_defence` after a second conflicting frame at virtual time 6,
inside the defend window: reset to INIT. -/
def c9_after_conflict : Session :=
  (ipv4acd_on_packet { now := 6, rand := 0, sendOk := true, schedOk := true }
    (RecvResult.frame ether_arp_size c9_after_defence.address) c9_after_defence).sessionD

/-! ## C8: stop is an unconditional reset that emits STOP -/

/-- C8: for every session in every state, `sd_ipv4acd_stop` resets the
session to INIT (releasing the timer and rx sources and closing the fd)
and emits exactly one STOP event; calling it again from the resulting
INIT state again leaves INIT and again emits exactly one STOP. -/
theorem stop_unconditional_reset_and_stop_event (ll : Session) :
    (sd_ipv4acd_stop ll).1.state = ACDState.INIT ∧
    (sd_ipv4acd_stop ll).1.timer = none ∧
    (sd_ipv4acd_stop ll).1.rxActive = false ∧
    (sd_ipv4acd_stop ll).1.fdOpen = false ∧
    (sd_ipv4acd_stop ll).2 = [Output.ev Event.STOP] ∧
    (sd_ipv4acd_stop (sd_ipv4acd_stop ll).1).1.state = ACDState.INIT ∧
    (sd_ipv4acd_stop (sd_ipv4acd_stop ll).1).2 = [Output.ev Event.STOP] := by
  simp [sd_ipv4acd_stop, ipv4acd_reset, ipv4acd_set_state]

/-! ## C6: configuration setters -/

/-- C6 counterexample: the claim says a zero MAC address or zero IPv4
address is rejected by the setter; in the code `sd_ipv4acd_set_mac` and
`sd_ipv4acd_set_address` only check the pointer for NULL, so on a fresh
INIT session both accept an all-zero value and return success. -/
theorem set_mac_accepts_zero_counterexample :
    sd_ipv4acd_set_mac sd_ipv4acd_new (some 0) =
      Except.ok sd_ipv4acd_new ∧
    sd_ipv4acd_set_address sd_ipv4acd_new (some 0) =
      Except.ok sd_ipv4acd_new := by
  constructor <;> rfl

/-- C6 amended: each setter succeeds only in state INIT and fails with
EBUSY whenever `is_running()` holds and the argument pointer is valid
(positive for ifindex); `set_ifindex` rejects a non-positive index with
EINVAL; `set_mac` / `set_address` reject only a NULL pointer with EINVAL
— a zero MAC or zero IPv4 address is accepted by the setter (it is
`sd_ipv4acd_start` that rejects the zero values). -/
theorem config_setters_amended :
    (∀ ll (i : Int), sd_ipv4acd_is_running ll = true → 0 < i →
        sd_ipv4acd_set_ifindex ll i = Except.error Errno.EBUSY) ∧
    (∀ ll (i : Int), i ≤ 0 →
        sd_ipv4acd_set_ifindex ll i = Except.error Errno.EINVAL) ∧
    (∀ ll a, sd_ipv4acd_is_running ll = true →
        sd_ipv4acd_set_mac ll (some a) = Except.error Errno.EBUSY) ∧
    (∀ ll a, sd_ipv4acd_is_running ll = true →
        sd_ipv4acd_set_address ll (some a) = Except.error Errno.EBUSY) ∧
    (∀ ll, sd_ipv4acd_set_mac ll none = Except.error Errno.EINVAL) ∧
    (∀ ll, sd_ipv4acd_set_address ll none = Except.error Errno.EINVAL) ∧
    (∀ ll i ll2, sd_ipv4acd_set_ifindex ll i = Except.ok ll2 →
        ll.state = ACDState.INIT ∧ 0 < i) ∧
    (∀ ll a ll2, sd_ipv4acd_set_mac ll (some a) = Except.ok ll2 →
        ll.state = ACDState.INIT ∧ ll2.mac_addr = a) ∧
    (∀ ll a ll2, sd_ipv4acd_set_address ll (some a) = Except.ok ll2 →
        ll.state = ACDState.INIT ∧ ll2.address = a) := by
  refine ⟨?_, ?_, ?_, ?_, ?_, ?_, ?_, ?_, ?_⟩
  · intro ll i hrun hi
    simp [sd_ipv4acd_is_running] at hrun
    simp [sd_ipv4acd_set_ifindex, hi, hrun, not_lt_of_gt hi]
  · intro ll i hi
    simp [sd_ipv4acd_set_ifindex, not_lt_of_ge hi]
  · intro ll a hrun
    simp [sd_ipv4acd_is_running] at hrun
    simp [sd_ipv4acd_set_mac, hrun]
  · intro ll a hrun
    simp [sd_ipv4acd_is_running] at hrun
    simp [sd_ipv4acd_set_address, hrun]
  · intro ll
    rfl
  · intro ll
    rfl
  · intro ll i ll2 h
    by_cases hi : (0 : Int) < i
    · by_cases hst : ll.state = ACDState.INIT
      · exact ⟨hst, hi⟩
      · simp [sd_ipv4acd_set_ifindex, hi, hst] at h
    · simp [sd_ipv4acd_set_ifindex, hi] at h
  · intro ll a ll2 h
    by_cases hst : ll.state = ACDState.INIT
    · refine ⟨hst, ?_⟩
      simp [sd_ipv4acd_set_mac, hst] at h
      simp [← h]
    · simp [sd_ipv4acd_set_mac, hst] at h
  · intro ll a ll2 h
    by_cases hst : ll.state = ACDState.INIT
    · refine ⟨hst, ?_⟩
      simp [sd_ipv4acd_set_address, hst] at h
      simp [← h]
    · simp [sd_ipv4acd_set_address, hst] at h

/-- C6 amended, witness: a concrete running session is refused with EBUSY
by `set_ifindex`. -/
theorem config_setters_amended_witness :
    sd_ipv4acd_is_running { sd_ipv4acd_new with state := ACDState.RUNNING } = true ∧
    (0 : Int) < 2 ∧
    sd_ipv4acd_set_ifindex { sd_ipv4acd_new with state := ACDState.RUNNING } 2 =
      Except.error Errno.EBUSY :=
  ⟨by decide, by decide,
   config_setters_amended.1 { sd_ipv4acd_new with state := ACDState.RUNNING } 2
     (by decide) (by decide)⟩

/-! ## C7: receive-path and failure-path error handling -/

/-- Helper: the ANNOUNCING/RUNNING packet branch never reaches the
assertion. -/
theorem ipv4acd_defend_not_assert (env : TickEnv) (spa : Nat) (ll : Session) :
    ipv4acd_defend env spa ll ≠ HResult.invalidStateAssert := by
  unfold ipv4acd_defend
  split
  · split
    · split <;> simp [sd_ipv4acd_stop]
    · simp [ipv4acd_on_conflict]
  · simp

/-- C7: a delivered frame shorter than `sizeof(struct ether_arp)` leaves
the session and outputs unchanged; transient recv errors (EAGAIN/EINTR)
are ignored; any other recv error resets to INIT and emits STOP; a send
failure in a probe/announce action resets to INIT and emits STOP; a
timer-scheduling failure in a state action resets to INIT and emits STOP
after whatever frame the action had already sent. -/
theorem rx_and_failure_error_handling :
    (∀ env ll n spa, n < ether_arp_size →
       ipv4acd_on_packet env (RecvResult.frame n spa) ll = HResult.ok ll []) ∧
    (∀ env ll, ipv4acd_on_packet env (RecvResult.err true) ll = HResult.ok ll []) ∧
    (∀ env ll, ipv4acd_on_packet env (RecvResult.err false) ll =
       HResult.ok (ipv4acd_reset ll) [Output.ev Event.STOP] ∧
       (ipv4acd_reset ll).state = ACDState.INIT) ∧
    (∀ env ll, env.sendOk = false →
       (ll.state = ACDState.WAITING_PROBE ∨ ll.state = ACDState.PROBING ∨
        ll.state = ACDState.WAITING_ANNOUNCE ∨
        (ll.state = ACDState.ANNOUNCING ∧ ll.n_iteration < ANNOUNCE_NUM - 1)) →
       ∃ ll2, ipv4acd_on_timeout env ll = HResult.ok ll2 [Output.ev Event.STOP] ∧
         ll2.state = ACDState.INIT) ∧
    (∀ env ll, env.schedOk = false → env.sendOk = true →
       (ll.state = ACDState.STARTED ∨ ll.state = ACDState.WAITING_PROBE ∨
        ll.state = ACDState.PROBING ∨ ll.state = ACDState.WAITING_ANNOUNCE ∨
        (ll.state = ACDState.ANNOUNCING ∧ ll.n_iteration < ANNOUNCE_NUM - 1)) →
       ∃ ll2 outs,
         ipv4acd_on_timeout env ll = HResult.ok ll2 (outs ++ [Output.ev Event.STOP]) ∧
         ll2.state = ACDState.INIT) := by
  refine ⟨?_, ?_, ?_, ?_, ?_⟩
  · intro env ll n spa hn
    simp [ipv4acd_on_packet, Nat.ne_of_lt hn]
  · intro env ll
    rfl
  · intro env ll
    exact ⟨rfl, by simp [ipv4acd_reset, ipv4acd_set_state]⟩
  · intro env ll hsend hst
    refine ⟨ipv4acd_reset ll, ?_, by simp [ipv4acd_reset, ipv4acd_set_state]⟩
    rcases hst with h | h | h | ⟨h, hn⟩
    · simp [ipv4acd_on_timeout, h, ipv4acd_probe_step, hsend, on_timeout_fail]
    · simp [ipv4acd_on_timeout, h, ipv4acd_probe_step, hsend, on_timeout_fail]
    · simp [ipv4acd_on_timeout, h, ipv4acd_announce_step, hsend, on_timeout_fail]
    · simp [ipv4acd_on_timeout, h, Nat.not_le.mpr hn, ipv4acd_announce_step,
            hsend, on_timeout_fail]
  · intro env ll hsched hsend hst
    rcases hst with h | h | h | h | ⟨h, hn⟩
    · refine ⟨ipv4acd_reset (ipv4acd_set_state ll ACDState.WAITING_PROBE true), [], ?_, ?_⟩
      · by_cases hc : MAX_CONFLICTS ≤ (ipv4acd_set_state ll ACDState.WAITING_PROBE true).n_conflict <;>
          simp [ipv4acd_on_timeout, h, ipv4acd_set_next_wakeup, hsched, hc, on_timeout_fail]
      · simp [ipv4acd_reset, ipv4acd_set_state]
    · by_cases hi : ll.n_iteration < PROBE_NUM - 2
      · refine ⟨ipv4acd_reset (ipv4acd_set_state ll ACDState.PROBING false),
          [Output.sentProbe], ?_, by simp [ipv4acd_reset, ipv4acd_set_state]⟩
        simp [ipv4acd_on_timeout, h, ipv4acd_probe_step, hsend, hi,
              ipv4acd_set_next_wakeup, hsched, on_timeout_fail]
      · refine ⟨ipv4acd_reset (ipv4acd_set_state ll ACDState.WAITING_ANNOUNCE true),
          [Output.sentProbe], ?_, by simp [ipv4acd_reset, ipv4acd_set_state]⟩
        simp [ipv4acd_on_timeout, h, ipv4acd_probe_step, hsend, hi,
              ipv4acd_set_next_wakeup, hsched, on_timeout_fail]
    · by_cases hi : ll.n_iteration < PROBE_NUM - 2
      · refine ⟨ipv4acd_reset (ipv4acd_set_state ll ACDState.PROBING false),
          [Output.sentProbe], ?_, by simp [ipv4acd_reset, ipv4acd_set_state]⟩
        simp [ipv4acd_on_timeout, h, ipv4acd_probe_step, hsend, hi,
              ipv4acd_set_next_wakeup, hsched, on_timeout_fail]
      · refine ⟨ipv4acd_reset (ipv4acd_set_state ll ACDState.WAITING_ANNOUNCE true),
          [Output.sentProbe], ?_, by simp [ipv4acd_reset, ipv4acd_set_state]⟩
        simp [ipv4acd_on_timeout, h, ipv4acd_probe_step, hsend, hi,
              ipv4acd_set_next_wakeup, hsched, on_timeout_fail]
    · refine ⟨ipv4acd_reset (ipv4acd_set_state ll ACDState.ANNOUNCING false),
        [Output.sentAnnouncement], ?_, by simp [ipv4acd_reset, ipv4acd_set_state]⟩
      simp [ipv4acd_on_timeout, h, ipv4acd_announce_step, hsend,
            ipv4acd_set_next_wakeup, hsched, on_timeout_fail]
    · refine ⟨ipv4acd_reset (ipv4acd_set_state ll ACDState.ANNOUNCING false),
        [Output.sentAnnouncement], ?_, by simp [ipv4acd_reset, ipv4acd_set_state]⟩
      simp [ipv4acd_on_timeout, h, Nat.not_le.mpr hn, ipv4acd_announce_step,
            hsend, ipv4acd_set_next_wakeup, hsched, on_timeout_fail]

/-- C7 witness: a 20-byte frame delivered while PROBING is ignored. -/
theorem rx_and_failure_error_handling_witness :
    (20 : Nat) < ether_arp_size ∧
    ipv4acd_on_packet env0 (RecvResult.frame 20 0)
        { sd_ipv4acd_new with state := ACDState.PROBING } =
      HResult.ok { sd_ipv4acd_new with state := ACDState.PROBING } [] :=
  ⟨by decide,
   rx_and_failure_error_handling.1 env0
     { sd_ipv4acd_new with state := ACDState.PROBING } 20 0 (by decide)⟩

/-! ## C10: packet delivered in STARTED hits the unreachable assertion -/

/-- C10: after a successful `sd_ipv4acd_start` the rx subscription is
active and the state is STARTED; a full-sized ARP frame delivered in
STARTED makes `ipv4acd_on_packet` reach the `assert_not_reached("Invalid
state.")` default branch, and that branch is reached exactly in the two
states INIT and STARTED — the handler's defined behaviour covers only
WAITING_PROBE, PROBING, WAITING_ANNOUNCE, ANNOUNCING and RUNNING. -/
theorem rx_in_started_invalid_state :
    (∀ env spa ll, ll.state = ACDState.STARTED →
       ipv4acd_on_packet env (RecvResult.frame ether_arp_size spa) ll =
         HResult.invalidStateAssert) ∧
    (∀ env spa ll,
       (ipv4acd_on_packet env (RecvResult.frame ether_arp_size spa) ll =
          HResult.invalidStateAssert ↔
        (ll.state = ACDState.INIT ∨ ll.state = ACDState.STARTED))) ∧
    (∀ bindOk ioOk env ll ll2,
       sd_ipv4acd_start bindOk ioOk env ll = (ll2, none) →
       ll2.state = ACDState.STARTED ∧ ll2.rxActive = true) := by
  refine ⟨?_, ?_, ?_⟩
  · intro env spa ll h
    simp [ipv4acd_on_packet, h, ether_arp_size]
  · intro env spa ll
    cases h : ll.state <;>
      simp [ipv4acd_on_packet, h, ether_arp_size, ipv4acd_on_conflict,
            ipv4acd_defend_not_assert]
  · intro bindOk ioOk env ll ll2 h
    simp only [sd_ipv4acd_start] at h
    split at h
    · simp at h
    split at h
    · simp at h
    split at h
    · simp at h
    split at h
    · simp at h
    split at h
    · simp at h
    split at h
    · simp at h
    split at h
    · simp at h
    split at h
    next heq =>
      simp at h
    next ll3 heq =>
      simp only [Prod.mk.injEq] at h
      simp [ipv4acd_set_next_wakeup] at heq
      obtain ⟨hsched, hll3⟩ := heq
      subst hll3
      rw [← h.1]
      simp [ipv4acd_set_state]

/-- C10 witness: a concrete configured session started successfully, then
handed a full 28-byte frame while STARTED. -/
theorem rx_in_started_invalid_state_witness :
    (exceptD (configure 2 2199023255553 2851473159)).state = ACDState.INIT ∧
    (sd_ipv4acd_start true true env0 (exceptD (configure 2 2199023255553 2851473159))).1.state =
      ACDState.STARTED ∧
    ipv4acd_on_packet env0 (RecvResult.frame ether_arp_size 2851473159)
        (sd_ipv4acd_start true true env0 (exceptD (configure 2 2199023255553 2851473159))).1 =
      HResult.invalidStateAssert :=
  ⟨by decide, by decide,
   (rx_in_started_invalid_state.1 env0 2851473159
     (sd_ipv4acd_start true true env0 (exceptD (configure 2 2199023255553 2851473159))).1
     (by decide))⟩

/-! ## C3: defence policy in ANNOUNCING / RUNNING -/

/-- C3: in ANNOUNCING or RUNNING, a conflicting full-size frame at a time
strictly after `defend_window` produces exactly one defensive
announcement and no event, sets `defend_window = now + DEFEND_INTERVAL`
and leaves every other field (in particular the state) unchanged; a
conflicting frame at `now ≤ defend_window` sends nothing, increments
`n_conflict`, emits exactly CONFLICT, and resets the session to INIT. -/
theorem conflict_defence_policy :
    ∀ env ll spa, env.sendOk = true →
      (ll.state = ACDState.ANNOUNCING ∨ ll.state = ACDState.RUNNING) →
      spa = ll.address →
      ((ll.defend_window < env.now →
         ipv4acd_on_packet env (RecvResult.frame ether_arp_size spa) ll =
           HResult.ok { ll with defend_window := env.now + DEFEND_INTERVAL_USEC }
             [Output.sentAnnouncement]) ∧
       (env.now ≤ ll.defend_window →
         ∃ ll2,
           ipv4acd_on_packet env (RecvResult.frame ether_arp_size spa) ll =
             HResult.ok ll2 [Output.ev Event.CONFLICT] ∧
           ll2.state = ACDState.INIT ∧ ll2.n_conflict = ll.n_conflict + 1 ∧
           ll2.defend_window = ll.defend_window)) := by
  intro env ll spa hsend hst hspa
  constructor
  · intro hlt
    rcases hst with h | h <;>
      simp [ipv4acd_on_packet, h, ether_arp_size, ipv4acd_defend,
            ipv4acd_arp_conflict, hspa, hlt, hsend]
  · intro hle
    refine ⟨ipv4acd_reset { ll with n_conflict := ll.n_conflict + 1 }, ?_, ?_, ?_, ?_⟩
    · rcases hst with h | h <;>
        simp [ipv4acd_on_packet, h, ether_arp_size, ipv4acd_defend,
              ipv4acd_arp_conflict, hspa, Nat.not_lt.mpr hle, ipv4acd_on_conflict]
    · simp [ipv4acd_reset, ipv4acd_set_state]
    · simp [ipv4acd_reset, ipv4acd_set_state]
    · simp [ipv4acd_reset, ipv4acd_set_state]

/-- C3 witness: a RUNNING session with address value 7 and an open defend
window receives a conflicting frame at virtual time 5 and defends. -/
theorem conflict_defence_policy_witness :
    ipv4acd_on_packet { now := 5, rand := 0, sendOk := true, schedOk := true }
        (RecvResult.frame ether_arp_size 7)
        { sd_ipv4acd_new with state := ACDState.RUNNING, address := 7 } =
      HResult.ok
        { sd_ipv4acd_new with
            state := ACDState.RUNNING
            address := 7
            defend_window := 5 + DEFEND_INTERVAL_USEC }
        [Output.sentAnnouncement] :=
  (conflict_defence_policy { now := 5, rand := 0, sendOk := true, schedOk := true }
      { sd_ipv4acd_new with state := ACDState.RUNNING, address := 7 } 7
      rfl (Or.inr rfl) rfl).1 (by decide)

/-! ## C1: exactly three probes between STARTED and WAITING_ANNOUNCE -/

/-- C1: starting in STARTED with the timer armed, a run with no received
frames and no send/scheduling failures sends exactly `PROBE_NUM = 3`
probes before entering WAITING_ANNOUNCE: none on the STARTED tick, one on
the WAITING_PROBE tick, one per PROBING repetition; the transition to
WAITING_ANNOUNCE happens on the probe sent when `n_iteration` has reached
`PROBE_NUM - 2`. -/
theorem probe_phase_sends_exactly_three_probes
    (ll : Session) (e1 e2 e3 e4 : TickEnv)
    (hst : ll.state = ACDState.STARTED) (htimer : ll.timer.isSome = true)
    (h1s : e1.schedOk = true)
    (h2p : e2.sendOk = true) (h2s : e2.schedOk = true)
    (h3p : e3.sendOk = true) (h3s : e3.schedOk = true)
    (h4p : e4.sendOk = true) (h4s : e4.schedOk = true) :
    tick_outs e1 ll = [] ∧
    (tick_session e1 ll).state = ACDState.WAITING_PROBE ∧
    (tick_session e1 ll).n_iteration = 0 ∧
    tick_outs e2 (tick_session e1 ll) = [Output.sentProbe] ∧
    (tick_session e2 (tick_session e1 ll)).state = ACDState.PROBING ∧
    (tick_session e2 (tick_session e1 ll)).n_iteration = 0 ∧
    tick_outs e3 (tick_session e2 (tick_session e1 ll)) = [Output.sentProbe] ∧
    (tick_session e3 (tick_session e2 (tick_session e1 ll))).state = ACDState.PROBING ∧
    (tick_session e3 (tick_session e2 (tick_session e1 ll))).n_iteration = PROBE_NUM - 2 ∧
    tick_outs e4 (tick_session e3 (tick_session e2 (tick_session e1 ll))) =
      [Output.sentProbe] ∧
    (tick_session e4 (tick_session e3 (tick_session e2 (tick_session e1 ll)))).state =
      ACDState.WAITING_ANNOUNCE ∧
    run_timers [e1, e2, e3, e4] ll =
      HResult.ok (tick_session e4 (tick_session e3 (tick_session e2 (tick_session e1 ll))))
        [Output.sentProbe, Output.sentProbe, Output.sentProbe] := by
  by_cases hc : MAX_CONFLICTS ≤ ll.n_conflict <;>
    simp [tick_session, tick_outs, run_timers, ipv4acd_on_timeout, ipv4acd_probe_step,
          ipv4acd_set_state, ipv4acd_set_next_wakeup, HResult.sessionD, HResult.outsD,
          hst, hc, h1s, h2p, h2s, h3p, h3s, h4p, h4s, PROBE_NUM]

/-- C1 witness: the concrete STARTED session with the timer armed at 0,
driven by four benign ticks. -/
theorem probe_phase_sends_exactly_three_probes_witness :
    ({ sd_ipv4acd_new with state := ACDState.STARTED, timer := some 0 } : Session).timer.isSome =
      true ∧
    run_timers [env0, env0, env0, env0]
        { sd_ipv4acd_new with state := ACDState.STARTED, timer := some 0 } =
      HResult.ok
        (tick_session env0 (tick_session env0 (tick_session env0 (tick_session env0
          { sd_ipv4acd_new with state := ACDState.STARTED, timer := some 0 }))))
        [Output.sentProbe, Output.sentProbe, Output.sentProbe] :=
  ⟨rfl,
   (probe_phase_sends_exactly_three_probes
      { sd_ipv4acd_new with state := ACDState.STARTED, timer := some 0 }
      env0 env0 env0 env0 rfl rfl rfl rfl rfl rfl rfl rfl
      rfl).2.2.2.2.2.2.2.2.2.2.2⟩

/-! ## C2: exactly two announcements, BIND once, before RUNNING -/

/-- C2: starting in WAITING_ANNOUNCE with the timer armed, a run with no
conflicts and no failures sends exactly `ANNOUNCE_NUM = 2` announcements
before entering RUNNING; BIND is emitted exactly once, on the first
announcement (when `n_iteration = 0`), and `n_conflict` is reset to 0 at
that first announcement. -/
theorem announce_phase_two_announcements_single_bind
    (ll : Session) (e1 e2 e3 : TickEnv)
    (hst : ll.state = ACDState.WAITING_ANNOUNCE) (htimer : ll.timer.isSome = true)
    (h1p : e1.sendOk = true) (h1s : e1.schedOk = true)
    (h2p : e2.sendOk = true) (h2s : e2.schedOk = true) :
    tick_outs e1 ll = [Output.sentAnnouncement, Output.ev Event.BIND] ∧
    (tick_session e1 ll).state = ACDState.ANNOUNCING ∧
    (tick_session e1 ll).n_iteration = 0 ∧
    (tick_session e1 ll).n_conflict = 0 ∧
    tick_outs e2 (tick_session e1 ll) = [Output.sentAnnouncement] ∧
    (tick_session e2 (tick_session e1 ll)).state = ACDState.ANNOUNCING ∧
    (tick_session e2 (tick_session e1 ll)).n_iteration = 1 ∧
    tick_outs e3 (tick_session e2 (tick_session e1 ll)) = [] ∧
    (tick_session e3 (tick_session e2 (tick_session e1 ll))).state = ACDState.RUNNING ∧
    run_timers [e1, e2, e3] ll =
      HResult.ok (tick_session e3 (tick_session e2 (tick_session e1 ll)))
        [Output.sentAnnouncement, Output.ev Event.BIND, Output.sentAnnouncement] := by
  simp [tick_session, tick_outs, run_timers, ipv4acd_on_timeout, ipv4acd_announce_step,
        ipv4acd_set_state, ipv4acd_set_next_wakeup, HResult.sessionD, HResult.outsD,
        hst, h1p, h1s, h2p, h2s, ANNOUNCE_NUM]

/-- C2 witness: the concrete WAITING_ANNOUNCE session with the timer armed
at 0, driven by three benign ticks. -/
theorem announce_phase_two_announcements_single_bind_witness :
    ({ sd_ipv4acd_new with state := ACDState.WAITING_ANNOUNCE, timer := some 0 } : Session).timer.isSome =
      true ∧
    run_timers [env0, env0, env0]
        { sd_ipv4acd_new with state := ACDState.WAITING_ANNOUNCE, timer := some 0 } =
      HResult.ok
        (tick_session env0 (tick_session env0 (tick_session env0
          { sd_ipv4acd_new with state := ACDState.WAITING_ANNOUNCE, timer := some 0 })))
        [Output.sentAnnouncement, Output.ev Event.BIND, Output.sentAnnouncement] :=
  ⟨rfl,
   (announce_phase_two_announcements_single_bind
      { sd_ipv4acd_new with state := ACDState.WAITING_ANNOUNCE, timer := some 0 }
      env0 env0 env0 rfl rfl rfl rfl rfl rfl).2.2.2.2.2.2.2.2.2⟩

/-! ## C5: wakeup timing bounds -/

/-- C5: for every random draw, the first-probe delay scheduled on the
STARTED tick lies in [0, PROBE_WAIT]; every inter-probe delay lies in
[PROBE_MIN, PROBE_MAX]; the delay from the final probe to the first
announcement is exactly ANNOUNCE_WAIT; the inter-announce delay is
exactly ANNOUNCE_INTERVAL; and with random range 0 the wakeup is
deterministic at the base delay. -/
theorem wakeup_timing_bounds :
    (∀ env ll, env.schedOk = true → ll.state = ACDState.STARTED →
       ll.n_conflict < MAX_CONFLICTS →
       (tick_session env ll).timer =
         some (env.now + next_timeout 0 PROBE_WAIT_USEC env.rand) ∧
       next_timeout 0 PROBE_WAIT_USEC env.rand ≤ PROBE_WAIT_USEC) ∧
    (∀ env ll, env.sendOk = true → env.schedOk = true →
       (ll.state = ACDState.WAITING_PROBE ∨ ll.state = ACDState.PROBING) →
       ll.n_iteration < PROBE_NUM - 2 →
       (tick_session env ll).timer =
         some (env.now +
           next_timeout PROBE_MIN_USEC (PROBE_MAX_USEC - PROBE_MIN_USEC) env.rand) ∧
       PROBE_MIN_USEC ≤
         next_timeout PROBE_MIN_USEC (PROBE_MAX_USEC - PROBE_MIN_USEC) env.rand ∧
       next_timeout PROBE_MIN_USEC (PROBE_MAX_USEC - PROBE_MIN_USEC) env.rand ≤
         PROBE_MAX_USEC) ∧
    (∀ env ll, env.sendOk = true → env.schedOk = true →
       (ll.state = ACDState.WAITING_PROBE ∨ ll.state = ACDState.PROBING) →
       PROBE_NUM - 2 ≤ ll.n_iteration →
       (tick_session env ll).timer = some (env.now + ANNOUNCE_WAIT_USEC)) ∧
    (∀ env ll, env.sendOk = true → env.schedOk = true →
       (ll.state = ACDState.WAITING_ANNOUNCE ∨
        (ll.state = ACDState.ANNOUNCING ∧ ll.n_iteration < ANNOUNCE_NUM - 1)) →
       (tick_session env ll).timer = some (env.now + ANNOUNCE_INTERVAL_USEC)) ∧
    (∀ usec rand, next_timeout usec 0 rand = usec) := by
  refine ⟨?_, ?_, ?_, ?_, ?_⟩
  · intro env ll hs hst hc
    constructor
    · simp [tick_session, ipv4acd_on_timeout, hst, Nat.not_le.mpr hc,
            ipv4acd_set_state, ipv4acd_set_next_wakeup, hs, HResult.sessionD]
    · have h1 : env.rand % (1000000 : Nat) < 1000000 := Nat.mod_lt _ (by norm_num)
      simp [next_timeout, PROBE_WAIT_USEC, USEC_PER_SEC]
      omega
  · intro env ll hp hs hst hi
    refine ⟨?_, ?_, ?_⟩
    · rcases hst with h | h <;>
        simp [tick_session, ipv4acd_on_timeout, h, ipv4acd_probe_step, hp, hi,
              ipv4acd_set_state, ipv4acd_set_next_wakeup, hs, HResult.sessionD]
    · exact Nat.le_add_right _ _
    · have h1 : env.rand % (1000000 : Nat) < 1000000 := Nat.mod_lt _ (by norm_num)
      simp [next_timeout, PROBE_MIN_USEC, PROBE_MAX_USEC, USEC_PER_SEC]
      omega
  · intro env ll hp hs hst hi
    rcases hst with h | h <;>
      simp [tick_session, ipv4acd_on_timeout, h, ipv4acd_probe_step, hp,
            Nat.not_lt.mpr hi, ipv4acd_set_state, ipv4acd_set_next_wakeup, hs,
            HResult.sessionD, next_timeout]
  · intro env ll hp hs hst
    rcases hst with h | ⟨h, hn⟩
    · simp [tick_session, ipv4acd_on_timeout, h, ipv4acd_announce_step, hp,
            ipv4acd_set_state, ipv4acd_set_next_wakeup, hs, HResult.sessionD,
            next_timeout]
    · simp [tick_session, ipv4acd_on_timeout, h, Nat.not_le.mpr hn,
            ipv4acd_announce_step, hp, ipv4acd_set_state, ipv4acd_set_next_wakeup,
            hs, HResult.sessionD, next_timeout]
  · intro usec rand
    simp [next_timeout]

/-- C5 witness: the STARTED tick of a concrete session arms the timer at
`now + next_timeout 0 PROBE_WAIT_USEC rand`, within PROBE_WAIT. -/
theorem wakeup_timing_bounds_witness :
    (tick_session env0 { sd_ipv4acd_new with state := ACDState.STARTED }).timer =
      some (env0.now + next_timeout 0 PROBE_WAIT_USEC env0.rand) ∧
    next_timeout 0 PROBE_WAIT_USEC env0.rand ≤ PROBE_WAIT_USEC :=
  wakeup_timing_bounds.1 env0 { sd_ipv4acd_new with state := ACDState.STARTED }
    rfl rfl (by decide)

/-! ## C4: rate limiting after MAX_CONFLICTS (defeated by start) -/

/-- C4 (bug evidence, scenario S3): after ten start/conflict rounds the
conflict counter is 1, not 10, because `sd_ipv4acd_start` unconditionally
zeroes `n_conflict`; consequently the 11th start reaches the STARTED tick
with `n_conflict = 0`, takes the non-rate-limited branch, arms the wakeup
at absolute time `now + next_timeout 0 PROBE_WAIT_USEC rand` (= 0 here,
far below RATE_LIMIT_INTERVAL), and the first probe goes out on that
wakeup — no 60 s delay ever happens. -/
theorem rate_limit_defeated_by_restart_reset :
    s3_after10.state = ACDState.INIT ∧
    s3_after10.n_conflict = 1 ∧
    (sd_ipv4acd_start true true env0 s3_after10).2 = none ∧
    s3_start11.state = ACDState.STARTED ∧
    s3_start11.n_conflict = 0 ∧
    s3_tick11 =
      HResult.ok { s3_start11 with state := ACDState.WAITING_PROBE, timer := some 0 } [] ∧
    (ipv4acd_on_timeout env0
        { s3_start11 with state := ACDState.WAITING_PROBE, timer := some 0 }).outsD =
      [Output.sentProbe] ∧
    env0.now = 0 ∧
    env0.now + next_timeout 0 PROBE_WAIT_USEC env0.rand < RATE_LIMIT_INTERVAL_USEC := by
  decide

/-! ## C9: the defend_window invariant -/

/-- C9 counterexample: a session driven to RUNNING through the public
API, defended once (setting `defend_window = 5 + DEFEND_INTERVAL`), then
reset to INIT by a conflict inside the window, retains the non-zero
`defend_window` while in INIT — `ipv4acd_reset` does not clear it, so
the claimed invariant "defend_window = 0 in every state other than
RUNNING/ANNOUNCING" fails in this reachable INIT state. -/
theorem stale_defend_window_in_init_counterexample :
    c9_running.state = ACDState.RUNNING ∧
    c9_running.defend_window = 0 ∧
    c9_after_defence.state = ACDState.RUNNING ∧
    c9_after_defence.defend_window = 5 + DEFEND_INTERVAL_USEC ∧
    c9_after_conflict.state = ACDState.INIT ∧
    c9_after_conflict.defend_window = 5 + DEFEND_INTERVAL_USEC ∧
    c9_after_conflict.defend_window ≠ 0 := by
  decide

/-- C9 amended: `defend_window` equals 0 in every reachable state among
STARTED, WAITING_PROBE, PROBING and WAITING_ANNOUNCE (`DefendWindowInv`),
and every operation — fresh session, start, stop, timer tick, frame
receipt, conflict reset, configuration setters — preserves that
invariant.  (In INIT the window may be stale and non-zero; it is cleared
by `sd_ipv4acd_start`, not by `ipv4acd_reset`.) -/
theorem defend_window_invariant_amended :
    DefendWindowInv sd_ipv4acd_new ∧
    (∀ bindOk ioOk env ll, DefendWindowInv ll →
       DefendWindowInv (sd_ipv4acd_start bindOk ioOk env ll).1) ∧
    (∀ ll, DefendWindowInv (sd_ipv4acd_stop ll).1) ∧
    (∀ env ll, DefendWindowInv ll →
       DefendWindowInv (ipv4acd_on_timeout env ll).sessionD) ∧
    (∀ env rx ll, DefendWindowInv ll →
       DefendWindowInv (ipv4acd_on_packet env rx ll).sessionD) ∧
    (∀ ll, DefendWindowInv (ipv4acd_on_conflict ll).1) ∧
    (∀ ll i ll2, sd_ipv4acd_set_ifindex ll i = Except.ok ll2 →
       DefendWindowInv ll → DefendWindowInv ll2) ∧
    (∀ ll a ll2, sd_ipv4acd_set_mac ll (some a) = Except.ok ll2 →
       DefendWindowInv ll → DefendWindowInv ll2) ∧
    (∀ ll a ll2, sd_ipv4acd_set_address ll (some a) = Except.ok ll2 →
       DefendWindowInv ll → DefendWindowInv ll2) := by
  refine ⟨by decide, ?_, ?_, ?_, ?_, ?_, ?_, ?_, ?_⟩
  · intro bindOk ioOk env ll hInv
    simp only [sd_ipv4acd_start]
    split
    · exact hInv
    split
    · exact hInv
    split
    · exact hInv
    split
    · exact hInv
    split
    · exact hInv
    split
    · exact hInv
    split
    · simp [DefendWindowInv, ipv4acd_reset, ipv4acd_set_state]
    split
    next heq =>
      simp [DefendWindowInv, ipv4acd_reset, ipv4acd_set_state]
    next x heq =>
      rcases ifh : env.schedOk with hf | ht
      · simp [ipv4acd_set_next_wakeup, ifh] at heq
      · simp [ipv4acd_set_next_wakeup, ifh] at heq
        subst heq
        simp [DefendWindowInv, ipv4acd_set_state]
  · intro ll
    simp [DefendWindowInv, sd_ipv4acd_stop, ipv4acd_reset, ipv4acd_set_state]
  · intro env ll hInv
    cases hst : ll.state
    case INIT =>
      simp [ipv4acd_on_timeout, hst, HResult.sessionD, DefendWindowInv, sd_ipv4acd_new]
    case RUNNING =>
      simp [ipv4acd_on_timeout, hst, HResult.sessionD, DefendWindowInv, sd_ipv4acd_new]
    case STARTED =>
      have h0 : ll.defend_window = 0 := hInv (Or.inl hst)
      by_cases hc : MAX_CONFLICTS ≤ ll.n_conflict <;>
        by_cases hs : env.schedOk = true <;>
          simp [ipv4acd_on_timeout, hst, hc, hs, ipv4acd_set_state,
                ipv4acd_set_next_wakeup, on_timeout_fail, ipv4acd_reset,
                HResult.sessionD, DefendWindowInv, h0]
    case WAITING_PROBE =>
      have h0 : ll.defend_window = 0 := hInv (Or.inr (Or.inl hst))
      by_cases hp : env.sendOk = true
      · by_cases hi : ll.n_iteration < PROBE_NUM - 2 <;>
          by_cases hs : env.schedOk = true <;>
            simp [ipv4acd_on_timeout, hst, ipv4acd_probe_step, hp, hi, hs,
                  ipv4acd_set_state, ipv4acd_set_next_wakeup, on_timeout_fail,
                  ipv4acd_reset, HResult.sessionD, DefendWindowInv, h0]
      · simp [ipv4acd_on_timeout, hst, ipv4acd_probe_step, hp, on_timeout_fail,
              ipv4acd_reset, ipv4acd_set_state, HResult.sessionD, DefendWindowInv]
    case PROBING =>
      have h0 : ll.defend_window = 0 := hInv (Or.inr (Or.inr (Or.inl hst)))
      by_cases hp : env.sendOk = true
      · by_cases hi : ll.n_iteration < PROBE_NUM - 2 <;>
          by_cases hs : env.schedOk = true <;>
            simp [ipv4acd_on_timeout, hst, ipv4acd_probe_step, hp, hi, hs,
                  ipv4acd_set_state, ipv4acd_set_next_wakeup, on_timeout_fail,
                  ipv4acd_reset, HResult.sessionD, DefendWindowInv, h0]
      · simp [ipv4acd_on_timeout, hst, ipv4acd_probe_step, hp, on_timeout_fail,
              ipv4acd_reset, ipv4acd_set_state, HResult.sessionD, DefendWindowInv]
    case WAITING_ANNOUNCE =>
      by_cases hp : env.sendOk = true <;>
        by_cases hs : env.schedOk = true <;>
          simp [ipv4acd_on_timeout, hst, ipv4acd_announce_step, hp, hs,
                ipv4acd_set_state, ipv4acd_set_next_wakeup, on_timeout_fail,
                ipv4acd_reset, HResult.sessionD, DefendWindowInv]
    case ANNOUNCING =>
      by_cases hn : ANNOUNCE_NUM - 1 ≤ ll.n_iteration
      · simp [ipv4acd_on_timeout, hst, hn, ipv4acd_set_state, HResult.sessionD,
              DefendWindowInv]
      · by_cases hp : env.sendOk = true <;>
          by_cases hs : env.schedOk = true <;>
            simp [ipv4acd_on_timeout, hst, hn, ipv4acd_announce_step, hp, hs,
                  ipv4acd_set_state, ipv4acd_set_next_wakeup, on_timeout_fail,
                  ipv4acd_reset, HResult.sessionD, DefendWindowInv]
  · intro env rx ll hInv
    cases rx with
    | err transient =>
        cases transient
        · simp [ipv4acd_on_packet, sd_ipv4acd_stop, HResult.sessionD,
                DefendWindowInv, ipv4acd_reset, ipv4acd_set_state]
        · simpa [ipv4acd_on_packet, HResult.sessionD] using hInv
    | frame n spa =>
        by_cases hlen : n = ether_arp_size
        · subst hlen
          cases hst : ll.state
          · simp [ipv4acd_on_packet, hst, HResult.sessionD, DefendWindowInv,
                  sd_ipv4acd_new]
          · simp [ipv4acd_on_packet, hst, HResult.sessionD, DefendWindowInv,
                  sd_ipv4acd_new]
          · simp [ipv4acd_on_packet, hst, ipv4acd_on_conflict, ipv4acd_reset,
                  ipv4acd_set_state, HResult.sessionD, DefendWindowInv]
          · simp [ipv4acd_on_packet, hst, ipv4acd_on_conflict, ipv4acd_reset,
                  ipv4acd_set_state, HResult.sessionD, DefendWindowInv]
          · simp [ipv4acd_on_packet, hst, ipv4acd_on_conflict, ipv4acd_reset,
                  ipv4acd_set_state, HResult.sessionD, DefendWindowInv]
          · by_cases hcf : ipv4acd_arp_conflict ll spa = true
            · by_cases hwin : ll.defend_window < env.now
              · by_cases hsend : env.sendOk = true <;>
                  simp [ipv4acd_on_packet, hst, ipv4acd_defend, hcf, hwin, hsend,
                        sd_ipv4acd_stop, ipv4acd_reset, ipv4acd_set_state,
                        HResult.sessionD, DefendWindowInv]
              · simp [ipv4acd_on_packet, hst, ipv4acd_defend, hcf, hwin,
                      ipv4acd_on_conflict, ipv4acd_reset, ipv4acd_set_state,
                      HResult.sessionD, DefendWindowInv]
            · simpa [ipv4acd_on_packet, hst, ipv4acd_defend, hcf,
                     HResult.sessionD] using hInv
          · by_cases hcf : ipv4acd_arp_conflict ll spa = true
            · by_cases hwin : ll.defend_window < env.now
              · by_cases hsend : env.sendOk = true <;>
                  simp [ipv4acd_on_packet, hst, ipv4acd_defend, hcf, hwin, hsend,
                        sd_ipv4acd_stop, ipv4acd_reset, ipv4acd_set_state,
                        HResult.sessionD, DefendWindowInv]
              · simp [ipv4acd_on_packet, hst, ipv4acd_defend, hcf, hwin,
                      ipv4acd_on_conflict, ipv4acd_reset, ipv4acd_set_state,
                      HResult.sessionD, DefendWindowInv]
            · simpa [ipv4acd_on_packet, hst, ipv4acd_defend, hcf,
                     HResult.sessionD] using hInv
        · simpa [ipv4acd_on_packet, hlen, HResult.sessionD] using hInv
  · intro ll
    simp [DefendWindowInv, ipv4acd_on_conflict, ipv4acd_reset, ipv4acd_set_state]
  · intro ll i ll2 h hInv
    by_cases hi : (0 : Int) < i
    · by_cases hst : ll.state = ACDState.INIT
      · simp [sd_ipv4acd_set_ifindex, hi, hst] at h
        subst h
        simp [DefendWindowInv, hst]
      · simp [sd_ipv4acd_set_ifindex, hi, hst] at h
    · simp [sd_ipv4acd_set_ifindex, hi] at h
  · intro ll a ll2 h hInv
    by_cases hst : ll.state = ACDState.INIT
    · simp [sd_ipv4acd_set_mac, hst] at h
      subst h
      simp [DefendWindowInv, hst]
    · simp [sd_ipv4acd_set_mac, hst] at h
  · intro ll a ll2 h hInv
    by_cases hst : ll.state = ACDState.INIT
    · simp [sd_ipv4acd_set_address, hst] at h
      subst h
      simp [DefendWindowInv, hst]
    · simp [sd_ipv4acd_set_address, hst] at h

/-- C9 amended, witness: the invariant holds for a concrete STARTED
session and is preserved by its timer tick. -/
theorem defend_window_invariant_amended_witness :
    DefendWindowInv { sd_ipv4acd_new with state := ACDState.STARTED } ∧
    DefendWindowInv
      (ipv4acd_on_timeout env0
        { sd_ipv4acd_new with state := ACDState.STARTED }).sessionD :=
  ⟨by decide,
   defend_window_invariant_amended.2.2.2.1 env0
     { sd_ipv4acd_new with state := ACDState.STARTED } (by decide)⟩

end IPv4ACD
